import Mathlib

/-!
Shallow embedding of the SQLAR archive core of `pysqlar`
(`pysqlar/archive.py` and the shadowing copy in `pysqlar/__init__.py`):
the row codec (`compress_data` / `decompress_data`), the extraction engine
(`_decompress_row`, `extract`, `extractall`), the schema detector
(`is_sqlar`), and the write path for symbolic links.  Machine integers are
modelled as `Int`/`Nat`, byte strings as `List Nat`, SQL values as an
explicit sum, and fallible Python code as `Except`.
-/

set_option autoImplicit false

namespace Pysqlar

/-- Python exceptions that the embedded code can raise.  `operationalError`
and `databaseError` stand for `sqlite3.OperationalError` and
`sqlite3.DatabaseError`; note that in CPython `OperationalError` is a
subclass of `DatabaseError`, not the other way around, so an
`except sqlite3.OperationalError` clause does not catch a bare
`DatabaseError`. -/
inductive PyExc where
  | typeError
  | valueError
  | nameError (n : String)
  | attributeError
  | unboundLocalError
  | operationalError
  | databaseError
  | zlibError
  deriving DecidableEq

/-- A value of the `data` column of the `sqlar` table as seen by Python:
SQL `NULL` becomes `None`, a `BLOB` becomes `bytes`, and a `TEXT` value
(which is what `write` inserts for a symlink target) becomes `str`. -/
inductive SqlData where
  | null
  | blob (b : List Nat)
  | text (s : String)
  deriving DecidableEq

/-- One row of the `sqlar` table: `(name, mode, mtime, sz, data)`. -/
structure Row where
  name : String
  mode : Int
  mtime : Int
  sz : Int
  data : SqlData
  deriving DecidableEq

/-! ## The zlib collaborator

`compress_data` calls `zlib.compress`, whose output is a complete zlib
stream (RFC 1950): a two-byte header (CMF byte `0x78`, a FLG byte that
depends on the compression level), the raw DEFLATE body, and a four-byte
big-endian Adler-32 checksum of the uncompressed input.  The DEFLATE body
itself is kept abstract (a function parameter), the framing is concrete. -/

/-- Value of `zlib.Z_DEFAULT_COMPRESSION`. -/
def Z_DEFAULT_COMPRESSION : Int := -1

/-- Value of `zlib.MAX_WBITS`. -/
def MAX_WBITS : Int := 15

/-- Adler-32 checksum of a byte sequence (RFC 1950, section 8.2). -/
def adler32 (b : List Nat) : Nat :=
  let p := b.foldl (fun (p : Nat × Nat) c => ((p.1 + c) % 65521, (p.2 + p.1 + c) % 65521)) (1, 0)
  p.2 * 65536 + p.1

/-- Big-endian four-byte encoding of the Adler-32 checksum, as appended by
zlib to every zlib-format stream. -/
def adlerBytes (b : List Nat) : List Nat :=
  [adler32 b / 16777216 % 256, adler32 b / 65536 % 256, adler32 b / 256 % 256, adler32 b % 256]

/-- The FLG byte of the two-byte zlib header, as produced by zlib for each
compression level (the familiar leading byte pairs `78 01`, `78 5e`,
`78 9c`, `78 da`). -/
def flgByte (level : Int) : Nat :=
  if level = Z_DEFAULT_COMPRESSION then 0x9c
  else if level ≤ 1 then 0x01
  else if level ≤ 5 then 0x5e
  else if level = 6 then 0x9c
  else 0xda

/-- Output of `zlib.compress(b, level)`: the zlib container around the raw
DEFLATE body.  `deflate` abstracts the bit-level DEFLATE compressor, indexed
by the level. -/
def zlib_compress (deflate : Int → List Nat → List Nat) (level : Int) (b : List Nat) : List Nat :=
  0x78 :: flgByte level :: (deflate level b ++ adlerBytes b)

/-- Stream framings the zlib module can produce or consume, selected by the
`wbits` parameter of `compressobj`/`decompressobj`: negative `wbits` means a
raw (header-less) DEFLATE stream, `1..15` the zlib container, larger values
the gzip container. -/
inductive StreamFormat where
  | rawDeflate
  | zlibWrapped
  | gzipWrapped
  deriving DecidableEq

/-- Framing selected by a given `wbits` value, per the zlib documentation. -/
def formatOfWbits (w : Int) : StreamFormat :=
  if w < 0 then .rawDeflate
  else if w ≤ 15 then .zlibWrapped
  else .gzipWrapped

/-- The `wbits` in effect for `zlib.compress`, the function `compress_data`
actually calls (the module-level convenience function always uses the zlib
container, i.e. `wbits = MAX_WBITS`). -/
def zlib_compress_wbits : Int := MAX_WBITS

/-- The `wbits` in effect for `zlib.decompress`, the function
`decompress_data` actually calls. -/
def zlib_decompress_wbits : Int := MAX_WBITS

/-- The `wbits` of the compressor built by `_get_deflated_compressor`
(`archive.py` line 43): `wbits=-zlib.MAX_WBITS`, i.e. raw DEFLATE.  This
helper exists in both modules but is never called by
`compress_data`/`decompress_data`. -/
def get_deflated_compressor_wbits : Int := -MAX_WBITS

/-- Framing of the payload stored by `compress_data` when its compressed
branch is taken: the framing `zlib.compress` produces. -/
def compress_data_storedFormat : StreamFormat := formatOfWbits zlib_compress_wbits

/-- Framing `decompress_data` expects of a compressed payload: the framing
`zlib.decompress` consumes. -/
def decompress_data_acceptedFormat : StreamFormat := formatOfWbits zlib_decompress_wbits

/-! ## Row codec (`archive.py` lines 46-87) -/

/-- The `level = level if level else zlib.Z_DEFAULT_COMPRESSION` line of
`compress_data` (`archive.py` line 65): `None` and the falsy integer `0`
are both replaced by `Z_DEFAULT_COMPRESSION`. -/
def pyLevelArg : Option Int → Int
  | none => Z_DEFAULT_COMPRESSION
  | some l => if l = 0 then Z_DEFAULT_COMPRESSION else l

/-- Embeds `compress_data` (`archive.py` lines 46-68): compress with
`zlib.compress` and keep the result only when it is strictly smaller than
the input, otherwise store the input itself. -/
def compress_data (deflate : Int → List Nat → List Nat) (b : List Nat) (level : Option Int) :
    List Nat :=
  if (zlib_compress deflate (pyLevelArg level) b).length < b.length then
    zlib_compress deflate (pyLevelArg level) b
  else b

/-- Embeds `decompress_data` (`archive.py` lines 71-87) at the Python value
level.  `zdec` abstracts `zlib.decompress` (which may itself raise on
corrupt input).  `len(None)` raises `TypeError`, and `zlib.decompress`
applied to a `str` raises `TypeError`. -/
def decompress_data (zdec : List Nat → Except PyExc (List Nat)) :
    SqlData → Int → Except PyExc SqlData
  | .null, _ => .error .typeError
  | .blob b, size =>
      if size = (b.length : Int) then .ok (.blob b)
      else
        match zdec b with
        | .ok d => .ok (.blob d)
        | .error e => .error e
  | .text s, size =>
      if size = (s.length : Int) then .ok (.text s)
      else .error .typeError

/-! ## Extraction engine (`archive.py` lines 89-99)

`_decompress_row` performs, in order: `mkdir(parents=True, exist_ok=True)` on
the parent of `path / name`, `open(complete_path, "wb")` (which creates or
truncates a regular file), evaluation of `decompress_data(data, size)`,
`f.write(...)`, `chmod(mode)`, `stat()`, and
`os.utime(..., times=(info.st_atime, mtime))`.  There is no branch on the
entry kind; every row goes through the regular-file path. -/

/-- Splits a character list at `'/'` boundaries, accumulating the current
segment in reverse. -/
def splitNameAux : List Char → List Char → List String
  | [], acc => [String.mk acc.reverse]
  | c :: cs, acc =>
      if c = '/' then String.mk acc.reverse :: splitNameAux cs []
      else splitNameAux cs (c :: acc)

/-- Path segments of an archive name: `Path` drops empty components, so
`"a/b/"` has parts `["a", "b"]`. -/
def splitName (s : String) : List String :=
  (splitNameAux s.data []).filter (fun t => t ≠ "")

/-- Filesystem mutations performed by the extraction engine, identified by
the path they touch (as segments below the working directory). -/
inductive FsOp where
  | mkdirParents (segs : List String)
  | createFile (segs : List String)
  | writeBytes (segs : List String) (b : List Nat)
  | chmod (segs : List String) (mode : Int)
  | setTimes (segs : List String) (atime mtime : Int)
  deriving DecidableEq

/-- Trace of the filesystem mutations performed before returning or raising,
together with the exception that escaped, if any. -/
structure ExtractOutcome where
  ops : List FsOp
  err : Option PyExc
  deriving DecidableEq

/-- Writing a value to a file opened in binary mode: only `bytes` are
accepted; writing a `str` (or `None`) raises `TypeError`. -/
def fwrite : SqlData → Except PyExc (List Nat)
  | .blob b => .ok b
  | _ => .error .typeError

/-- Embeds `_decompress_row` (`archive.py` lines 89-99).  `root` is the
destination path as segments, `observedAtime` the access time `stat`
reports for the freshly written file (the current value, supplied by the
environment).  The parent `mkdir` and the `open(..., "wb")` happen before
`decompress_data(data, size)` is evaluated, so they are performed even when
that evaluation raises. -/
def _decompress_row (zdec : List Nat → Except PyExc (List Nat)) (root : List String)
    (row : Row) (observedAtime : Int) : ExtractOutcome :=
  match decompress_data zdec row.data row.sz with
  | .error e =>
      ⟨[.mkdirParents (root ++ splitName row.name).dropLast,
        .createFile (root ++ splitName row.name)], some e⟩
  | .ok d =>
      match fwrite d with
      | .error e =>
          ⟨[.mkdirParents (root ++ splitName row.name).dropLast,
            .createFile (root ++ splitName row.name)], some e⟩
      | .ok b =>
          ⟨[.mkdirParents (root ++ splitName row.name).dropLast,
            .createFile (root ++ splitName row.name),
            .writeBytes (root ++ splitName row.name) b,
            .chmod (root ++ splitName row.name) row.mode,
            .setTimes (root ++ splitName row.name) observedAtime row.mtime], none⟩

/-! ## Archive operations (`archive.py` lines 248-363) -/

/-- Lookup of `SELECT ... FROM sqlar WHERE name = ?` over the rows of the
archive (`name` is the primary key, so the first match is the match). -/
def lookupRow (ar : List Row) (nm : String) : Option Row :=
  ar.find? (fun r => r.name == nm)

/-- Embeds `getinfo` (`archive.py` lines 248-265): the metadata tuple
`(name, mode, mtime, sz)` of the row, or `None` when `fetchone` finds no
row. -/
def getinfo (ar : List Row) (nm : String) : Option (String × Int × Int × Int) :=
  (lookupRow ar nm).map (fun r => (r.name, r.mode, r.mtime, r.sz))

/-- Embeds `read` (`archive.py` lines 345-363): decode the row's data when
the row exists, otherwise fall off the end of the function and return
`None`. -/
def read (zdec : List Nat → Except PyExc (List Nat)) (ar : List Row) (nm : String) :
    Option (Except PyExc SqlData) :=
  (lookupRow ar nm).map (fun r => decompress_data zdec r.data r.sz)

/-- Embeds `extract` (`archive.py` lines 290-309): when the row exists,
hand it to `_decompress_row`; when it does not, do nothing at all. -/
def extract (zdec : List Nat → Except PyExc (List Nat)) (ar : List Row) (root : List String)
    (nm : String) (observedAtime : Int) : ExtractOutcome :=
  match lookupRow ar nm with
  | none => ⟨[], none⟩
  | some r => _decompress_row zdec root r observedAtime

/-! ## Batch extraction (`archive.py` lines 311-343) -/

/-- The validation at `archive.py` lines 324-325:
`if members and len(members) > 1000: raise ValueError(...)`. -/
def extractall_members_check (members : List String) : Except PyExc Unit :=
  if members ≠ [] ∧ 1000 < members.length then .error .valueError else .ok ()

/-- Python `str.join`: `sep.join(parts)` interleaves `sep` between the
parts. -/
def pyJoin (sep : List Char) : List (List Char) → List Char
  | [] => []
  | [x] => x
  | x :: y :: rest => x ++ sep ++ pyJoin sep (y :: rest)

/-- The text spliced into `SELECT * FROM sqlar WHERE name IN ({})` at
`archive.py` line 333 (identically at `__init__.py` line 149):
`'?,'.join('' for _ in members)`, i.e. the separator `"?,"` joined between
`len(members)` empty strings. -/
def extractall_inlist (members : List String) : List Char :=
  pyJoin ['?', ','] (members.map (fun _ => []))

/-- Number of `?` parameter slots in a piece of SQL text. -/
def countPlaceholders : List Char → Nat
  | [] => 0
  | c :: cs => (if c = '?' then 1 else 0) + countPlaceholders cs

/-- The sqlite3 binding rule: executing a statement succeeds only when the
number of `?` slots equals the number of supplied parameters. -/
def sqlite_bind_ok (slots params : Nat) : Bool := slots == params

/-! ## Schema detector (`archive.py` lines 130-179) -/

/-- Python `str.split()` with no argument: split on runs of whitespace,
dropping empty results. -/
def pySplitWs (s : String) : List String :=
  (s.split (fun c => c.isWhitespace)).filter (fun t => t ≠ "")

/-- The whitespace normalization `" ".join(sql.split())` used both to build
`SQLAR_TABLE_SCHEMA` (`archive.py` line 27) and to normalize the schema
text read back from `sqlite_master` (`archive.py` line 170). -/
def normalizeWs (s : String) : String :=
  String.intercalate " " (pySplitWs s)

/-- The canonical normalized schema text `SQLAR_TABLE_SCHEMA`
(`archive.py` lines 27-34). -/
def SQLAR_TABLE_SCHEMA : String :=
  normalizeWs "\nCREATE TABLE sqlar(\n    name TEXT PRIMARY KEY,\n    mode INT,\n    mtime INT,\n    sz INT,\n    data BLOB\n)"

/-- Behaviour of the underlying sqlite3 store for a given candidate file,
as `is_sqlar` observes it: whether the file exists, what
`sqlite3.connect` does, and what the `sqlite_master` schema query does
(returning the `sql` text of the `sqlar` table, `None` when there is no
such table, or raising). -/
structure SqliteEnv where
  fileExists : Bool
  connectResult : Except PyExc Unit
  schemaQuery : Except PyExc (Option String)

/-- Embeds `is_sqlar` (`archive.py` lines 130-179) including its
`try/except sqlite3.OperationalError/finally` shape: `":memory:"` is always
`True`; a missing file is `False`; when `_init_archive` raises, the local
`conn` was never bound, so the `finally` block's `conn.close()` raises
`UnboundLocalError` (whether or not the original exception was caught); when
the schema query raises `OperationalError` the except clause catches it and
the function returns `False`; any other exception from the query escapes
uncaught. -/
def is_sqlar (env : SqliteEnv) (filename : String) : Except PyExc Bool :=
  if filename = ":memory:" then .ok true
  else if env.fileExists = false then .ok false
  else
    match env.connectResult with
    | .error _ => .error .unboundLocalError
    | .ok _ =>
        match env.schemaQuery with
        | .error .operationalError => .ok false
        | .error e => .error e
        | .ok none => .ok false
        | .ok (some sql) => .ok (normalizeWs sql == SQLAR_TABLE_SCHEMA)

/-! ## The write path for symbolic links (`archive.py` lines 417-419) -/

/-- A symbolic link on disk: the absolute directory containing it (as path
segments) and the target string stored in the link itself (what
`os.readlink` returns). -/
structure LinkInfo where
  dir : List String
  target : String

/-- Models `str(path.resolve().as_posix())` for a symlink whose stored
target is a plain relative name (no `.`/`..` segments, the target itself
not a symlink): `Path.resolve` follows the link, joining its parent
directory with the stored target into an absolute path. -/
def resolveAsPosix (l : LinkInfo) : String :=
  "/" ++ String.intercalate "/" (l.dir ++ [l.target])

/-- Embeds the symlink branch of `write` (`archive.py` lines 417-419 and
440-447): the inserted row has `sz = -1` and `data` the *resolved* path of
the link, `data = str(path.resolve().as_posix())`. -/
def write_symlink_row (arcname : String) (mode mtime : Int) (l : LinkInfo) : Row :=
  { name := arcname, mode := mode, mtime := mtime, sz := -1,
    data := .text (resolveAsPosix l) }

/-! ## `SQLiteArchive.read` from `pysqlar/__init__.py` (lines 162-173)

The package's top-level module defines its own `SQLiteArchive` class whose
`read` method executes
`c.execute("SELECT * FROM sqlar WHERE name = ?;", member)` — but no name
`member` is bound anywhere: the method's assigned locals are
`self`, `name`, `c`, `row`, `size`, `data`, and the module globals are the
imports and top-level definitions of `__init__.py`.  Python therefore
raises `NameError: name 'member' is not defined` while evaluating the
arguments of `execute`, before any query runs. -/

/-- The module-level names of `pysqlar/__init__.py`: the imported names
(lines 1-9) and the top-level definitions (lines 12-55). -/
def initModuleGlobals : List String :=
  ["functools", "os", "sqlite3", "sys", "zlib", "datetime", "Enum", "auto", "Path",
   "Compression", "SQLAR_STORED", "SQLAR_DEFLATED", "_get_deflated_decompressor",
   "_get_deflated_compressor", "compress_data", "decompress_data", "_decompress_row",
   "SQLiteArchive"]

/-- Names assigned somewhere in the body of `SQLiteArchive.read`
(`__init__.py` lines 162-173), hence its local variables, plus its
parameters. -/
def read_init_locals : List String :=
  ["self", "name", "c", "row", "size", "data"]

/-- A few relevant Python builtins (none of them is `member`). -/
def pyBuiltins : List String :=
  ["len", "isinstance", "str", "bytes", "open", "print", "int"]

/-- The full name-resolution scope of `SQLiteArchive.read` in
`__init__.py`: locals, then module globals, then builtins. -/
def read_init_scope : List String :=
  read_init_locals ++ initModuleGlobals ++ pyBuiltins

/-- Embeds `SQLiteArchive.read` of `pysqlar/__init__.py` (lines 162-173).
Evaluating the bare identifier `member` raises `NameError` unless some
enclosing scope binds it.  The resolved branch transcribes the rest of the
body — which dereferences `data. size`, an attribute access that would
raise `AttributeError` — but it is dead: `read_init_scope` contains no
binding for `member`. -/
def read_init (_ar : List Row) (_nm : String) : Except PyExc SqlData :=
  if "member" ∈ read_init_scope then .error .attributeError
  else .error (.nameError "member")

/-! ## Concrete stand-ins used to instantiate theorems at concrete inputs -/

/-- A DEFLATE body stand-in that copies its input. -/
def deflateId : Int → List Nat → List Nat := fun _ b => b

/-- A DEFLATE body stand-in that produces the empty body. -/
def deflateNil : Int → List Nat → List Nat := fun _ _ => []

/-- A `zlib.decompress` stand-in returning the fixed byte string `[5]`. -/
def zdec5 : List Nat → Except PyExc (List Nat) := fun _ => .ok [5]

/-- A `zlib.decompress` stand-in that always reports corrupt input. -/
def zdecFail : List Nat → Except PyExc (List Nat) := fun _ => .error .zlibError

/-! ## Helper lemmas -/

theorem map_nil_eq_replicate (members : List String) :
    members.map (fun _ => ([] : List Char)) = List.replicate members.length [] := by
  induction members with
  | nil => rfl
  | cons m ms ih => simp [ih, List.replicate_succ]

theorem pyJoin_empties (n : Nat) :
    pyJoin ['?', ','] (List.replicate (n + 1) ([] : List Char)) =
      List.flatten (List.replicate n ['?', ',']) := by
  induction n with
  | zero => rfl
  | succ k ih =>
      rw [List.replicate_succ, List.replicate_succ]
      show ([] : List Char) ++ ['?', ','] ++ pyJoin ['?', ','] ([] :: List.replicate k []) = _
      rw [← List.replicate_succ, ih, List.replicate_succ]
      simp

theorem countPlaceholders_append (a b : List Char) :
    countPlaceholders (a ++ b) = countPlaceholders a + countPlaceholders b := by
  induction a with
  | nil => simp [countPlaceholders]
  | cons c cs ih => simp [countPlaceholders, ih, Nat.add_assoc]

theorem countPlaceholders_join_rep (n : Nat) :
    countPlaceholders (List.flatten (List.replicate n ['?', ','])) = n := by
  induction n with
  | zero => rfl
  | succ k ih =>
      rw [List.replicate_succ]
      simp [countPlaceholders_append, ih, countPlaceholders, Nat.add_comm]

/-! ## Claim theorems -/

/-- C1: the claim says `extract`/`extractall` materialize each entry
according to its kind, a directory row producing the directory with no file
created and no error, and a symlink row producing a symbolic link.  The
code has no kind branch: on the directory row `("a/b/", 493, 1578096131, 0,
NULL)` it creates a regular file at `a/b` (after `mkdir` of the parent
`a` only) and then raises `TypeError` from `len(None)`, and on a symlink
row it creates a regular file and raises `TypeError` from
`zlib.decompress` applied to a `str`; no directory or symlink entry is
ever materialized. -/
theorem extract_directory_and_symlink_rows_crash :
    _decompress_row zdecFail [] ⟨"a/b/", 493, 1578096131, 0, SqlData.null⟩ 0 =
      ⟨[FsOp.mkdirParents ["a"], FsOp.createFile ["a", "b"]], some PyExc.typeError⟩ ∧
    _decompress_row zdecFail [] ⟨"lnk", 438, 1578096131, -1, SqlData.text "target.txt"⟩ 0 =
      ⟨[FsOp.mkdirParents [], FsOp.createFile ["lnk"]], some PyExc.typeError⟩ := by
  constructor <;> rfl

/-- C2: decoding after encoding is the identity.  For any level and any
DEFLATE body, provided `zlib.decompress` inverts `zlib.compress` on the
input (the zlib contract), `decompress_data` applied to the output of
`compress_data` with the original length returns the original bytes; the
stored-mode encoding (the bytes themselves with their length) also decodes
to the original.  The same-length fallback in `compress_data` means the
documented collision hazard never materializes on this encoder: the round
trip holds for every input. -/
theorem roundtrip_decode_encode (deflate : Int → List Nat → List Nat)
    (zdec : List Nat → Except PyExc (List Nat)) (level : Option Int) (b : List Nat)
    (h : zdec (zlib_compress deflate (pyLevelArg level) b) = Except.ok b) :
    decompress_data zdec (SqlData.blob (compress_data deflate b level)) (b.length : Int) =
      Except.ok (SqlData.blob b) ∧
    decompress_data zdec (SqlData.blob b) (b.length : Int) = Except.ok (SqlData.blob b) := by
  constructor
  · unfold compress_data
    by_cases hlt : (zlib_compress deflate (pyLevelArg level) b).length < b.length
    · rw [if_pos hlt]
      have hne : ¬ ((b.length : Int) =
          ((zlib_compress deflate (pyLevelArg level) b).length : Int)) := by
        omega
      simp [decompress_data, hne, h]
    · rw [if_neg hlt]
      simp [decompress_data]
  · simp [decompress_data]

/-- C2 witness: the round trip evaluated at the concrete byte string `[5]`
with a concrete codec pair satisfying the inversion contract there. -/
theorem roundtrip_decode_encode_witness :
    decompress_data zdec5 (SqlData.blob (compress_data deflateId [5] none))
        (([5] : List Nat).length : Int) = Except.ok (SqlData.blob [5]) ∧
    decompress_data zdec5 (SqlData.blob [5]) (([5] : List Nat).length : Int) =
      Except.ok (SqlData.blob [5]) :=
  roundtrip_decode_encode deflateId zdec5 none [5] rfl

/-- C3: the claim says a subset of exactly 999 names succeeds and 1000 or
more fail fast with a validation error.  In the code the guard is
`len(members) > 1000`, so a 1000-name subset raises nothing, and the
`IN`-list built for any non-empty subset has one `?` slot fewer than the
number of supplied parameters (ending in a stray comma, as the two-member
instance shows), so a 999-name request cannot bind its parameters and does
not succeed. -/
theorem extractall_bound_off_by_one_and_inlist_mismatch :
    extractall_members_check (List.replicate 1000 "x") = Except.ok () ∧
    countPlaceholders (extractall_inlist (List.replicate 999 "x")) = 998 ∧
    sqlite_bind_ok 998 999 = false ∧
    extractall_inlist (List.replicate 2 "x") = ['?', ','] := by
  refine ⟨?_, ?_, by decide, by decide⟩
  · unfold extractall_members_check
    have hc : ¬ (List.replicate 1000 "x" ≠ [] ∧ 1000 < (List.replicate 1000 "x").length) := by
      rintro ⟨-, hlt⟩
      rw [List.length_replicate] at hlt
      omega
    rw [if_neg hc]
  · unfold extractall_inlist
    rw [List.map_replicate]
    rw [show (999 : Nat) = 998 + 1 by norm_num]
    rw [pyJoin_empties, countPlaceholders_join_rep]

/-- C4 counterexample: the claim says the stored payload of a compressed
entry is a raw (header-less) DEFLATE stream and that decoding consumes such
a stream.  `compress_data` calls `zlib.compress` and `decompress_data`
calls `zlib.decompress`, both of which use the zlib container format
(`wbits = MAX_WBITS`), not raw DEFLATE. -/
theorem deflated_payload_not_raw_deflate :
    compress_data_storedFormat = StreamFormat.zlibWrapped ∧
    compress_data_storedFormat ≠ StreamFormat.rawDeflate ∧
    decompress_data_acceptedFormat ≠ StreamFormat.rawDeflate := by
  decide

/-- C4 amended: whenever the compressed branch of `compress_data` is taken,
the stored payload is a complete zlib-format stream — a two-byte header
(leading byte `0x78`), the DEFLATE body, and the four-byte Adler-32
trailer — and both codec directions use the zlib container format. -/
theorem deflated_payload_is_zlib_stream (deflate : Int → List Nat → List Nat)
    (level : Option Int) (b : List Nat)
    (h : (zlib_compress deflate (pyLevelArg level) b).length < b.length) :
    compress_data deflate b level =
      0x78 :: flgByte (pyLevelArg level) ::
        (deflate (pyLevelArg level) b ++ adlerBytes b) ∧
    compress_data_storedFormat = StreamFormat.zlibWrapped ∧
    decompress_data_acceptedFormat = StreamFormat.zlibWrapped := by
  refine ⟨?_, by decide, by decide⟩
  unfold compress_data
  rw [if_pos h]
  rfl

/-- C4 amended witness: the zlib framing of the stored payload evaluated at
a concrete seven-byte input whose (stand-in) compressed stream is smaller. -/
theorem deflated_payload_is_zlib_stream_witness :
    compress_data deflateNil (List.replicate 7 0) none =
      0x78 :: flgByte (pyLevelArg none) ::
        (deflateNil (pyLevelArg none) (List.replicate 7 0) ++
          adlerBytes (List.replicate 7 0)) ∧
    compress_data_storedFormat = StreamFormat.zlibWrapped ∧
    decompress_data_acceptedFormat = StreamFormat.zlibWrapped :=
  deflated_payload_is_zlib_stream deflateNil none (List.replicate 7 0) (by decide)

/-- C5: the claim (and the docstrings of `write` and of the class) says a
symlink row stores the link's own target; the code stores
`str(path.resolve().as_posix())`, the fully resolved absolute path.  For a
link in directory `/d` whose stored target is the relative name `t`, the
inserted row has `sz = -1` but `data = "/d/t"`, not the original target
`"t"`. -/
theorem write_symlink_stores_resolved_path :
    (write_symlink_row "lnk" 438 1578096131 ⟨["d"], "t"⟩).sz = -1 ∧
    (write_symlink_row "lnk" 438 1578096131 ⟨["d"], "t"⟩).data = SqlData.text "/d/t" ∧
    SqlData.text "/d/t" ≠ SqlData.text "t" := by
  refine ⟨rfl, by decide, by decide⟩

/-- C6: the claim says `is_sqlar` never raises.  The `except` clause
catches only `sqlite3.OperationalError`; when the schema query raises
`sqlite3.DatabaseError` (as it does for an existing file that is not an
SQLite database) the exception propagates, and when `sqlite3.connect`
itself fails the `finally` block's `conn.close()` raises
`UnboundLocalError` because `conn` was never bound.  Neither outcome is the
boolean `False` the claim requires. -/
theorem is_sqlar_propagates_exceptions :
    is_sqlar ⟨true, Except.ok (), Except.error PyExc.databaseError⟩ "example.txt" =
      Except.error PyExc.databaseError ∧
    is_sqlar ⟨true, Except.error PyExc.operationalError, Except.ok none⟩ "example.txt" =
      Except.error PyExc.unboundLocalError ∧
    Except.error PyExc.databaseError ≠ (Except.ok false : Except PyExc Bool) := by
  refine ⟨rfl, rfl, fun h => Except.noConfusion h⟩

/-- C7: when extraction of a row completes without error (the regular-file
path), the trace applies exactly the stored mode via `chmod`, sets the
modification time to exactly the stored `mtime`, and passes the access time
`stat` just reported — the file's current access time — back to `utime`
unchanged. -/
theorem extract_applies_exact_mode_and_mtime (zdec : List Nat → Except PyExc (List Nat))
    (root : List String) (row : Row) (observedAtime : Int)
    (h : (_decompress_row zdec root row observedAtime).err = none) :
    ∃ b, _decompress_row zdec root row observedAtime =
      ⟨[FsOp.mkdirParents (root ++ splitName row.name).dropLast,
        FsOp.createFile (root ++ splitName row.name),
        FsOp.writeBytes (root ++ splitName row.name) b,
        FsOp.chmod (root ++ splitName row.name) row.mode,
        FsOp.setTimes (root ++ splitName row.name) observedAtime row.mtime], none⟩ := by
  unfold _decompress_row at h ⊢
  cases hd : decompress_data zdec row.data row.sz with
  | error e =>
      rw [hd] at h
      exact Option.noConfusion h
  | ok d =>
      rw [hd] at h
      dsimp only at h ⊢
      cases hw : fwrite d with
      | error e =>
          rw [hw] at h
          exact Option.noConfusion h
      | ok b => exact ⟨b, rfl⟩

/-- C7 witness: a concrete stored regular file with mode `0o644 = 420` and
mtime `1578096131`, extracted with observed access time `7`. -/
theorem extract_applies_exact_mode_and_mtime_witness :
    ∃ b, _decompress_row zdecFail [] ⟨"f.txt", 420, 1578096131, 3, SqlData.blob [1, 2, 3]⟩ 7 =
      ⟨[FsOp.mkdirParents ([] ++ splitName "f.txt").dropLast,
        FsOp.createFile ([] ++ splitName "f.txt"),
        FsOp.writeBytes ([] ++ splitName "f.txt") b,
        FsOp.chmod ([] ++ splitName "f.txt") 420,
        FsOp.setTimes ([] ++ splitName "f.txt") 7 1578096131], none⟩ :=
  extract_applies_exact_mode_and_mtime zdecFail []
    ⟨"f.txt", 420, 1578096131, 3, SqlData.blob [1, 2, 3]⟩ 7 (by rfl)

/-- C8: for a name absent from the archive, `read` and `getinfo` return
`None` rather than raising, and `extract` performs no filesystem mutation
and raises nothing. -/
theorem absent_name_none_and_noop (zdec : List Nat → Except PyExc (List Nat)) (ar : List Row)
    (root : List String) (nm : String) (observedAtime : Int)
    (h : lookupRow ar nm = none) :
    read zdec ar nm = none ∧ getinfo ar nm = none ∧
    extract zdec ar root nm observedAtime = ⟨[], none⟩ := by
  refine ⟨?_, ?_, ?_⟩ <;> simp [read, getinfo, extract, h]

/-- C8 witness: a concrete one-entry archive queried for a name it does not
contain. -/
theorem absent_name_none_and_noop_witness :
    read zdecFail [⟨"x", 1, 2, 3, SqlData.blob []⟩] "y" = none ∧
    getinfo [⟨"x", 1, 2, 3, SqlData.blob []⟩] "y" = none ∧
    extract zdecFail [⟨"x", 1, 2, 3, SqlData.blob []⟩] [] "y" 0 = ⟨[], none⟩ :=
  absent_name_none_and_noop zdecFail [⟨"x", 1, 2, 3, SqlData.blob []⟩] [] "y" 0 (by rfl)

/-- C9: for every non-empty members list of length `n`, the text spliced
into the `IN (...)` clause is `"?,"` repeated `n - 1` times — `n - 1`
parameter slots each followed by a comma — so the number of slots never
equals the number of supplied member parameters. -/
theorem extractall_inlist_always_short_one (members : List String) (h : members ≠ []) :
    extractall_inlist members = List.flatten (List.replicate (members.length - 1) ['?', ',']) ∧
    countPlaceholders (extractall_inlist members) = members.length - 1 ∧
    members.length - 1 ≠ members.length := by
  obtain ⟨m, ms, rfl⟩ := List.exists_cons_of_ne_nil h
  have h1 : extractall_inlist (m :: ms) =
      pyJoin ['?', ','] (List.replicate (ms.length + 1) []) := by
    unfold extractall_inlist
    rw [map_nil_eq_replicate]
    simp
  rw [h1, pyJoin_empties]
  refine ⟨by simp, by rw [countPlaceholders_join_rep]; simp, by simp⟩

/-- C9 witness: three members produce the text `"?,?,"` — two slots, two
commas — which cannot bind three parameters. -/
theorem extractall_inlist_always_short_one_witness :
    extractall_inlist ["a", "b", "c"] =
      List.flatten (List.replicate (["a", "b", "c"].length - 1) ['?', ',']) ∧
    countPlaceholders (extractall_inlist ["a", "b", "c"]) = ["a", "b", "c"].length - 1 ∧
    ["a", "b", "c"].length - 1 ≠ ["a", "b", "c"].length :=
  extractall_inlist_always_short_one ["a", "b", "c"] (by decide)

/-- C10: the `read` method of the `SQLiteArchive` class defined in
`pysqlar/__init__.py` references the name `member`, which is bound neither
among its locals nor in the module globals nor in the builtins, so every
call raises `NameError` and never returns decoded bytes. -/
theorem read_init_always_nameerror (ar : List Row) (nm : String) :
    read_init ar nm = Except.error (PyExc.nameError "member") ∧
    "member" ∉ read_init_scope := by
  have h : "member" ∉ read_init_scope := by decide
  exact ⟨by simp [read_init, h], h⟩

end Pysqlar
